import Mathlib

/-!
Shallow embedding of the bidding-strategy mutation layer, the action logger,
the dry-run updater, the decision loop and the run logger of the
`agentic_dsta` repository, together with theorems settling the claims about
them.  Python dictionaries are modelled as association lists, protobuf
mutation objects as records with an explicit oneof tag, and fallible code as
`Except` values.  Each embedded definition keeps the name of the Python
function it translates (leading underscores preserved).
-/

namespace AgenticDsta

/-- One structured error inside a `GoogleAdsFailure` (external library
type): an error code and a message. -/
structure GoogleAdsError where
  error_code : String
  message : String
  deriving DecidableEq, Repr

/-- The structured failure payload of a rejected mutation: the list of
structured error objects the backend returned. -/
structure GoogleAdsFailure where
  errors : List GoogleAdsError
  deriving DecidableEq, Repr

/-- The `GoogleAdsException` raised by the backend client on rejection. -/
structure GoogleAdsException where
  failure : GoogleAdsFailure
  deriving DecidableEq, Repr

/-- Values that flow through the Python dictionaries and exception arguments
of the program (details dicts, tool params, result dicts); `errList` is a
structured error list carried as a value, the shape a non-flattened failure
payload would have. -/
inductive PyValue where
  | str (s : String)
  | int (n : Int)
  | bool (b : Bool)
  | errList (es : List GoogleAdsError)
  | none
  deriving DecidableEq, Repr

/-- A Python `dict` with string keys, as an association list (first binding
of a key wins, as in the embedded code every key occurs at most once). -/
abbrev Dict := List (String × PyValue)

/-- Truthiness of an `Optional[Dict]`: `None` and the empty dict are falsy. -/
def dictTruthy : Option Dict → Bool
  | Option.none => false
  | Option.some d => !d.isEmpty

/-- Python `key in d` on an `Optional[Dict]` combined with the truthiness
guard the source always writes first (`if strategy_details and k in ...`). -/
def dictHas (d : Option Dict) (k : String) : Bool :=
  dictTruthy d && ((d.getD []).lookup k).isSome

/-- Python `d[k]`; in the embedded code every indexing is guarded by a
membership test, so the default is never reached. -/
def dictGet (d : Option Dict) (k : String) : PyValue :=
  ((d.getD []).lookup k).getD PyValue.none

/-- Python `s.upper()` on the ASCII strategy / channel / location strings
the program handles, as a per-character map (kernel-reducible model of
`str.upper`). -/
def pyUpper (s : String) : String := String.mk (s.data.map Char.toUpper)

/-- Lexicographic comparison of character lists by code point. -/
def charListLe : List Char → List Char → Bool
  | [], _ => true
  | _ :: _, [] => false
  | a :: as, b :: bs =>
    if a.toNat < b.toNat then true
    else if b.toNat < a.toNat then false
    else charListLe as bs

/-- Python string comparison `s <= t` (lexicographic by code point), used to
model `sorted` on path strings. -/
def strLe (s t : String) : Bool := charListLe s.data t.data

/-- The `TargetImpressionShareLocationEnum.TargetImpressionShareLocation`
enum of the Google Ads v22 API (external library): like every protobuf
enum it has the `UNSPECIFIED` and `UNKNOWN` members in addition to the three
page locations. -/
inductive TargetImpressionShareLocation where
  | UNSPECIFIED
  | UNKNOWN
  | ANYWHERE_ON_PAGE
  | TOP_OF_PAGE
  | ABSOLUTE_TOP_OF_PAGE
  deriving DecidableEq, Repr

/-- Python `TargetImpressionShareLocationEnum.TargetImpressionShareLocation[s]`:
lookup of an enum member by its exact name, `KeyError` (here `none`) when the
string names no member. -/
def locationEnumByName (s : String) : Option TargetImpressionShareLocation :=
  if s = "UNSPECIFIED" then some .UNSPECIFIED
  else if s = "UNKNOWN" then some .UNKNOWN
  else if s = "ANYWHERE_ON_PAGE" then some .ANYWHERE_ON_PAGE
  else if s = "TOP_OF_PAGE" then some .TOP_OF_PAGE
  else if s = "ABSOLUTE_TOP_OF_PAGE" then some .ABSOLUTE_TOP_OF_PAGE
  else none

/-- Which variant of the bidding-strategy oneof is active on a mutation
object (`.unset` when no variant has been touched yet). -/
inductive StrategyOneof where
  | unset
  | maximize_conversions
  | maximize_conversion_value
  | target_spend
  | manual_cpc
  | target_impression_share
  | manual_cpm
  | manual_cpv
  | percent_cpc
  | commission
  | target_cpa
  | target_roas
  deriving DecidableEq, Repr

/-- The mutable campaign / portfolio bidding-strategy mutation object: the
oneof tag plus every sub-field the builder can write.  Attribute access on a
oneof sub-message (`strategy_obj.maximize_conversions  # Activate oneof`)
is modelled as setting the tag, following the source's own comments and the
spec's description of oneof-by-attribute-access activation. -/
structure StrategyObj where
  oneofCase : StrategyOneof := .unset
  mc_target_cpa_micros : Option PyValue := Option.none
  mcv_target_roas : Option PyValue := Option.none
  ts_cpc_bid_ceiling_micros : Option PyValue := Option.none
  manual_cpc_enhanced_cpc_enabled : Option PyValue := Option.none
  tis_location : Option TargetImpressionShareLocation := Option.none
  tis_location_fraction_micros : Option PyValue := Option.none
  tis_cpc_bid_ceiling_micros : Option PyValue := Option.none
  pc_cpc_bid_ceiling_micros : Option PyValue := Option.none
  pc_enhanced_cpc_enabled : Option PyValue := Option.none
  commission_rate_micros : Option PyValue := Option.none
  tcpa_target_cpa_micros : Option PyValue := Option.none
  troas_target_roas : Option PyValue := Option.none
  bidding_strategy_link : Option String := Option.none
  deriving DecidableEq, Repr

/-- A fresh mutation object, no variant active, no sub-field set. -/
def StrategyObj.fresh : StrategyObj := {}

/-- Result of one `_apply_*` helper: the mutated object, the grown
field-mask accumulator and the returned boolean. -/
structure ApplyResult where
  obj : StrategyObj
  paths : List String
  ok : Bool
  deriving DecidableEq, Repr

/-- Embeds `_apply_maximize_conversions`. -/
def _apply_maximize_conversions (strategy_obj : StrategyObj)
    (field_mask_paths : List String) (strategy_details : Option Dict) :
    ApplyResult :=
  let obj := { strategy_obj with oneofCase := .maximize_conversions }
  let obj :=
    if dictHas strategy_details "target_cpa_micros" then
      { obj with mc_target_cpa_micros :=
          (some (dictGet strategy_details "target_cpa_micros")) }
    else obj
  { obj := obj,
    paths := field_mask_paths ++ ["maximize_conversions.target_cpa_micros"],
    ok := true }

/-- Embeds `_apply_maximize_conversion_value`. -/
def _apply_maximize_conversion_value (strategy_obj : StrategyObj)
    (field_mask_paths : List String) (strategy_details : Option Dict) :
    ApplyResult :=
  let obj := { strategy_obj with oneofCase := .maximize_conversion_value }
  let obj :=
    if dictHas strategy_details "target_roas" then
      { obj with mcv_target_roas := some (dictGet strategy_details "target_roas") }
    else obj
  { obj := obj,
    paths := field_mask_paths ++ ["maximize_conversion_value.target_roas"],
    ok := true }

/-- Embeds `_apply_target_spend`. -/
def _apply_target_spend (strategy_obj : StrategyObj)
    (field_mask_paths : List String) (strategy_details : Option Dict) :
    ApplyResult :=
  let obj := { strategy_obj with oneofCase := .target_spend }
  let obj :=
    if dictHas strategy_details "cpc_bid_ceiling_micros" then
      { obj with ts_cpc_bid_ceiling_micros :=
          (some (dictGet strategy_details "cpc_bid_ceiling_micros")) }
    else obj
  { obj := obj,
    paths := field_mask_paths ++ ["target_spend.cpc_bid_ceiling_micros"],
    ok := true }

/-- Embeds `_apply_manual_cpc`. -/
def _apply_manual_cpc (strategy_obj : StrategyObj)
    (field_mask_paths : List String) (strategy_details : Option Dict) :
    ApplyResult :=
  let obj := { strategy_obj with oneofCase := .manual_cpc }
  let obj :=
    if dictHas strategy_details "enhanced_cpc_enabled" then
      { obj with manual_cpc_enhanced_cpc_enabled :=
          (some (dictGet strategy_details "enhanced_cpc_enabled")) }
    else obj
  { obj := obj,
    paths := field_mask_paths ++ ["manual_cpc.enhanced_cpc_enabled"],
    ok := true }

/-- Embeds `_apply_target_impression_share`.  The missing-key check comes
before any mutation; the oneof is activated before the location string is
validated, and a `KeyError` from the enum lookup aborts with `false`. -/
def _apply_target_impression_share (strategy_obj : StrategyObj)
    (field_mask_paths : List String) (strategy_details : Option Dict) :
    ApplyResult :=
  if !dictTruthy strategy_details ||
      !(dictHas strategy_details "location") ||
      !(dictHas strategy_details "location_fraction_micros") then
    { obj := strategy_obj, paths := field_mask_paths, ok := false }
  else
    let obj := { strategy_obj with oneofCase := .target_impression_share }
    let location_str :=
      pyUpper (match dictGet strategy_details "location" with
        | PyValue.str s => s
        | _ => "")
    match locationEnumByName location_str with
    | Option.none => { obj := obj, paths := field_mask_paths, ok := false }
    | Option.some location_enum =>
      let obj := { obj with tis_location := some location_enum }
      let obj := { obj with tis_location_fraction_micros :=
          (some (dictGet strategy_details "location_fraction_micros")) }
      let paths := field_mask_paths ++
          ["target_impression_share.location",
           "target_impression_share.location_fraction_micros"]
      if dictHas strategy_details "cpc_bid_ceiling_micros" then
        { obj := { obj with tis_cpc_bid_ceiling_micros :=
              (some (dictGet strategy_details "cpc_bid_ceiling_micros")) },
          paths := paths ++ ["target_impression_share.cpc_bid_ceiling_micros"],
          ok := true }
      else
        { obj := obj, paths := paths, ok := true }

/-- Embeds `_apply_percent_cpc`. -/
def _apply_percent_cpc (strategy_obj : StrategyObj)
    (field_mask_paths : List String) (strategy_details : Option Dict) :
    ApplyResult :=
  let obj := { strategy_obj with oneofCase := .percent_cpc }
  let obj :=
    if dictHas strategy_details "cpc_bid_ceiling_micros" then
      { obj with pc_cpc_bid_ceiling_micros :=
          (some (dictGet strategy_details "cpc_bid_ceiling_micros")) }
    else obj
  let obj :=
    if dictHas strategy_details "enhanced_cpc_enabled" then
      { obj with pc_enhanced_cpc_enabled :=
          (some (dictGet strategy_details "enhanced_cpc_enabled")) }
    else obj
  { obj := obj,
    paths := field_mask_paths ++ ["percent_cpc.cpc_bid_ceiling_micros"],
    ok := true }

/-- Embeds `_apply_commission`. -/
def _apply_commission (strategy_obj : StrategyObj)
    (field_mask_paths : List String) (strategy_details : Option Dict) :
    ApplyResult :=
  let obj := { strategy_obj with oneofCase := .commission }
  let obj :=
    if dictHas strategy_details "commission_rate_micros" then
      { obj with commission_rate_micros :=
          (some (dictGet strategy_details "commission_rate_micros")) }
    else obj
  { obj := obj,
    paths := field_mask_paths ++ ["commission.commission_rate_micros"],
    ok := true }

/-- Embeds `_apply_target_cpa` (portfolio-only type). -/
def _apply_target_cpa (strategy_obj : StrategyObj)
    (field_mask_paths : List String) (strategy_details : Option Dict) :
    ApplyResult :=
  let obj := { strategy_obj with oneofCase := .target_cpa }
  if dictHas strategy_details "target_cpa_micros" then
    { obj := { obj with tcpa_target_cpa_micros :=
          (some (dictGet strategy_details "target_cpa_micros")) },
      paths := field_mask_paths ++ ["target_cpa.target_cpa_micros"],
      ok := true }
  else
    { obj := obj, paths := field_mask_paths, ok := false }

/-- Embeds `_apply_target_roas` (portfolio-only type). -/
def _apply_target_roas (strategy_obj : StrategyObj)
    (field_mask_paths : List String) (strategy_details : Option Dict) :
    ApplyResult :=
  let obj := { strategy_obj with oneofCase := .target_roas }
  if dictHas strategy_details "target_roas" then
    { obj := { obj with troas_target_roas :=
          (some (dictGet strategy_details "target_roas")) },
      paths := field_mask_paths ++ ["target_roas.target_roas"],
      ok := true }
  else
    { obj := obj, paths := field_mask_paths, ok := false }

/-- Embeds `_apply_bidding_strategy_details`, the if/elif dispatch on the
strategy-type string. -/
def _apply_bidding_strategy_details (strategy_obj : StrategyObj)
    (strategy_type : String) (field_mask_paths : List String)
    (strategy_details : Option Dict) : ApplyResult :=
  if strategy_type = "MAXIMIZE_CONVERSIONS" then
    _apply_maximize_conversions strategy_obj field_mask_paths strategy_details
  else if strategy_type = "MAXIMIZE_CONVERSION_VALUE" then
    _apply_maximize_conversion_value strategy_obj field_mask_paths strategy_details
  else if strategy_type = "TARGET_SPEND" then
    _apply_target_spend strategy_obj field_mask_paths strategy_details
  else if strategy_type = "MANUAL_CPC" then
    _apply_manual_cpc strategy_obj field_mask_paths strategy_details
  else if strategy_type = "TARGET_IMPRESSION_SHARE" then
    _apply_target_impression_share strategy_obj field_mask_paths strategy_details
  else if strategy_type = "MANUAL_CPM" then
    { obj := { strategy_obj with oneofCase := .manual_cpm },
      paths := field_mask_paths, ok := true }
  else if strategy_type = "MANUAL_CPV" then
    { obj := { strategy_obj with oneofCase := .manual_cpv },
      paths := field_mask_paths, ok := true }
  else if strategy_type = "PERCENT_CPC" then
    _apply_percent_cpc strategy_obj field_mask_paths strategy_details
  else if strategy_type = "COMMISSION" then
    _apply_commission strategy_obj field_mask_paths strategy_details
  else if strategy_type = "TARGET_CPA" then
    _apply_target_cpa strategy_obj field_mask_paths strategy_details
  else if strategy_type = "TARGET_ROAS" then
    _apply_target_roas strategy_obj field_mask_paths strategy_details
  else
    { obj := strategy_obj, paths := field_mask_paths, ok := false }

/-- The dotted paths of the sub-fields that are actually set on a mutation
object: the observable counterpart of the field-mask invariant. -/
def setSubFieldPaths (o : StrategyObj) : List String :=
  (if o.mc_target_cpa_micros.isSome then ["maximize_conversions.target_cpa_micros"] else []) ++
  (if o.mcv_target_roas.isSome then ["maximize_conversion_value.target_roas"] else []) ++
  (if o.ts_cpc_bid_ceiling_micros.isSome then ["target_spend.cpc_bid_ceiling_micros"] else []) ++
  (if o.manual_cpc_enhanced_cpc_enabled.isSome then ["manual_cpc.enhanced_cpc_enabled"] else []) ++
  (if o.tis_location.isSome then ["target_impression_share.location"] else []) ++
  (if o.tis_location_fraction_micros.isSome then ["target_impression_share.location_fraction_micros"] else []) ++
  (if o.tis_cpc_bid_ceiling_micros.isSome then ["target_impression_share.cpc_bid_ceiling_micros"] else []) ++
  (if o.pc_cpc_bid_ceiling_micros.isSome then ["percent_cpc.cpc_bid_ceiling_micros"] else []) ++
  (if o.pc_enhanced_cpc_enabled.isSome then ["percent_cpc.enhanced_cpc_enabled"] else []) ++
  (if o.commission_rate_micros.isSome then ["commission.commission_rate_micros"] else []) ++
  (if o.tcpa_target_cpa_micros.isSome then ["target_cpa.target_cpa_micros"] else []) ++
  (if o.troas_target_roas.isSome then ["target_roas.target_roas"] else [])

/-- The `ALLOWED_STRATEGIES` table of `bidding_strategy_utils.py`:
channel type ↦ list of allowed strategy types. -/
def ALLOWED_STRATEGIES : List (String × List String) :=
  [("PERFORMANCE_MAX",
    ["MAXIMIZE_CONVERSIONS",
     "MAXIMIZE_CONVERSION_VALUE"]),
   ("SEARCH",
    ["MANUAL_CPC",
     "TARGET_SPEND",
     "MAXIMIZE_CONVERSIONS",
     "MAXIMIZE_CONVERSION_VALUE",
     "TARGET_IMPRESSION_SHARE"]),
   ("DISPLAY",
    ["MANUAL_CPC",
     "MANUAL_CPM",
     "TARGET_CPM",
     "MAXIMIZE_CONVERSIONS",
     "MAXIMIZE_CONVERSION_VALUE"]),
   ("VIDEO",
    ["MANUAL_CPV",
     "TARGET_CPV",
     "TARGET_CPM",
     "MAXIMIZE_CONVERSIONS"]),
   ("HOTEL",
    ["MANUAL_CPC",
     "PERCENT_CPC",
     "COMMISSION"])]

/-- The `PROHIBITED_STRATEGIES` table of `bidding_strategy_utils.py`. -/
def PROHIBITED_STRATEGIES : List (String × List String) :=
  [("PERFORMANCE_MAX",
    ["MANUAL_CPC", "TARGET_IMPRESSION_SHARE", "TARGET_SPEND", "MANUAL_CPM",
     "MANUAL_CPV", "PERCENT_CPC", "COMMISSION"]),
   ("SEARCH",
    ["MANUAL_CPM", "COMMISSION", "MANUAL_CPV", "PERCENT_CPC"]),
   ("DISPLAY",
    ["TARGET_IMPRESSION_SHARE", "COMMISSION", "MANUAL_CPV", "PERCENT_CPC"]),
   ("VIDEO",
    ["MANUAL_CPC", "TARGET_IMPRESSION_SHARE", "MAXIMIZE_CONVERSION_VALUE",
     "TARGET_ROAS", "TARGET_SPEND", "PERCENT_CPC", "COMMISSION"]),
   ("HOTEL",
    ["TARGET_IMPRESSION_SHARE", "MANUAL_CPM", "TARGET_CPM",
     "MAXIMIZE_CONVERSIONS", "MAXIMIZE_CONVERSION_VALUE",
     "TARGET_CPA", "TARGET_ROAS", "TARGET_SPEND", "MANUAL_CPV"])]

/-- Embeds `validate_strategy_change`: upper-cases both inputs, denies
unknown channels, then checks the allowed list and the prohibited list. -/
def validate_strategy_change (channel_type target_strategy : String) : Bool :=
  let channel_type := pyUpper channel_type
  let target_strategy := pyUpper target_strategy
  match ALLOWED_STRATEGIES.lookup channel_type with
  | Option.none => false
  | Option.some allowed =>
    if target_strategy ∉ allowed then false
    else
      match PROHIBITED_STRATEGIES.lookup channel_type with
      | Option.some prohibited =>
        if target_strategy ∈ prohibited then false else true
      | Option.none => true

/-- Python truthiness of a value (empty string, zero, `False`, `None` are
falsy). -/
def pyTruthy : PyValue → Bool
  | PyValue.str s => !(s = "")
  | PyValue.int n => !(n = 0)
  | PyValue.bool b => b
  | PyValue.errList es => !es.isEmpty
  | PyValue.none => false

/-- Truthiness of `d.get(k)`: `None` (absent key) is falsy. -/
def pyTruthyOpt : Option PyValue → Bool
  | Option.none => false
  | Option.some v => pyTruthy v

/-- String content of a value (`""` for non-strings; the embedded code only
extracts strings it previously stored). -/
def pyStr : PyValue → String
  | PyValue.str s => s
  | _ => ""

/-- Model of Python `str(ex.failure)`, protobuf's textual rendering of the
failure: a single string derived from the error list. -/
def renderFailure (f : GoogleAdsFailure) : String :=
  String.intercalate "; "
    (f.errors.map (fun e => e.error_code ++ ": " ++ e.message))

/-- A Python exception as raised by the updater functions.  `raise X from ex`
is modelled by the `cause` component of a `RuntimeError` (Python's
`__cause__` chain); the arguments of the exception itself are `args`. -/
inductive PyErr where
  | runtimeError (args : List PyValue) (cause : Option GoogleAdsException)
  | valueError (msg : String)
  deriving DecidableEq, Repr

/-- One call to the backend mutate service, recording the field-mask path
list attached to the request at submission time. -/
structure MutateCall where
  maskPaths : List String
  deriving DecidableEq, Repr

deriving instance DecidableEq for Except

/-- Result of running one updater function: the returned dict or the raised
exception, plus the trace of backend mutate calls it performed. -/
structure UpdateOutcome where
  result : Except PyErr Dict
  mutateCalls : List MutateCall
  deriving DecidableEq, Repr

/-- The environment an updater runs against: whether a client could be
obtained, what `get_campaign_details` returns, and how the backend answers
the mutate call (resource name on success, structured exception on
rejection). -/
structure AdsEnv where
  clientOk : Bool := true
  campaignDetails : Dict := []
  mutateOutcome : Except GoogleAdsException String := Except.ok "rn"
  deriving Repr

/-- Python `s.startswith(pre)`, as a character-list prefix test
(kernel-reducible model of `str.startswith`). -/
def strStartsWith (s pre : String) : Bool := pre.data.isPrefixOf s.data

/-- Submission step of `update_bidding_strategy`: attaches the accumulated
field-mask paths verbatim (`FieldMask(paths=field_mask_paths)`) and executes
the mutation; on `GoogleAdsException` it raises
`RuntimeError(f"Failed to update bidding strategy: {ex.failure}") from ex`. -/
def ubsSubmit (env : AdsEnv) (field_mask_paths : List String) : UpdateOutcome :=
  match env.mutateOutcome with
  | Except.ok rn =>
    { result := Except.ok
        [("success", PyValue.bool true), ("resource_name", PyValue.str rn)],
      mutateCalls := [{ maskPaths := field_mask_paths }] }
  | Except.error ex =>
    { result := Except.error (PyErr.runtimeError
        [PyValue.str ("Failed to update bidding strategy: " ++
          renderFailure ex.failure)] (some ex)),
      mutateCalls := [{ maskPaths := field_mask_paths }] }

/-- Embeds `update_bidding_strategy`: client check, campaign-details fetch,
channel-type extraction, strategy validation, mutation construction (with
the `customers/` portfolio-reference special case), mask attachment and
submission. -/
def update_bidding_strategy (env : AdsEnv)
    (customer_id campaign_id strategy_type : String)
    (strategy_details : Option Dict) : UpdateOutcome :=
  if !env.clientOk then
    { result := Except.error (PyErr.runtimeError
        [PyValue.str "Failed to get Google Ads client."] Option.none),
      mutateCalls := [] }
  else
    let campaign_data := env.campaignDetails
    if pyTruthyOpt (campaign_data.lookup "error") then
      { result := Except.ok campaign_data, mutateCalls := [] }
    else if !pyTruthyOpt (campaign_data.lookup "advertisingChannelType") then
      { result := Except.error (PyErr.valueError
          "Could not determine advertising_channel_type."),
        mutateCalls := [] }
    else
      let advertising_channel_type :=
        pyStr ((campaign_data.lookup "advertisingChannelType").getD PyValue.none)
      if !validate_strategy_change advertising_channel_type strategy_type then
        { result := Except.error (PyErr.valueError
            ("Bidding strategy " ++ strategy_type ++
             " is not allowed for channel type " ++
             advertising_channel_type ++ ".")),
          mutateCalls := [] }
      else
        let campaign := StrategyObj.fresh
        if strStartsWith strategy_type "customers/" then
          let _campaign := { campaign with bidding_strategy_link := some strategy_type }
          let field_mask_paths : List String := ["bidding_strategy"]
          ubsSubmit env field_mask_paths
        else
          let r := _apply_bidding_strategy_details campaign strategy_type []
            strategy_details
          if !r.ok then
            { result := Except.error (PyErr.valueError
                ("Failed to apply bidding strategy details for type: " ++
                 strategy_type)),
              mutateCalls := [] }
          else
            let field_mask_paths := r.paths ++ ["bidding_strategy"]
            ubsSubmit env field_mask_paths

/-- Embeds `update_campaign_status`: the update mask is first set to
`["status"]` via `copy_from` and then `"status"` is appended to it again
before the request is submitted. -/
def update_campaign_status (env : AdsEnv)
    (customer_id campaign_id status : String) : UpdateOutcome :=
  if !env.clientOk then
    { result := Except.error (PyErr.runtimeError
        [PyValue.str "Failed to get Google Ads client."] Option.none),
      mutateCalls := [] }
  else if status = "ENABLED" || status = "PAUSED" then
    let maskPaths : List String := ["status"]
    let maskPaths := maskPaths ++ ["status"]
    match env.mutateOutcome with
    | Except.ok rn =>
      { result := Except.ok
          [("success", PyValue.bool true), ("resource_name", PyValue.str rn)],
        mutateCalls := [{ maskPaths := maskPaths }] }
    | Except.error ex =>
      { result := Except.error (PyErr.runtimeError
          [PyValue.str ("Failed to update campaign: " ++
            renderFailure ex.failure)] (some ex)),
        mutateCalls := [{ maskPaths := maskPaths }] }
  else
    { result := Except.error (PyErr.valueError
        ("Invalid status provided: " ++ status ++ ". Use ENABLED or PAUSED.")),
      mutateCalls := [] }

/-- Ascending insertion into a sorted list of strings. -/
def insertAsc (s : String) : List String → List String
  | [] => [s]
  | x :: xs => if strLe s x then s :: x :: xs else x :: insertAsc s xs

/-- Insertion sort on strings, ascending. -/
def sortStringsAsc (l : List String) : List String :=
  l.foldr insertAsc []

/-- Python `sorted(list(set(l)))`: the distinct elements in ascending
order. -/
def pySortedSet (l : List String) : List String :=
  sortStringsAsc l.dedup

/-- Embeds `update_portfolio_bidding_strategy`: validates the resource-name
scope, applies the strategy details to a fresh portfolio object, then
deduplicates and sorts the accumulated mask paths before submission. -/
def update_portfolio_bidding_strategy (env : AdsEnv)
    (customer_id bidding_strategy_resource_name strategy_type : String)
    (strategy_details : Option Dict) : UpdateOutcome :=
  if !env.clientOk then
    { result := Except.error (PyErr.runtimeError
        [PyValue.str "Failed to get Google Ads client."] Option.none),
      mutateCalls := [] }
  else if !(strStartsWith bidding_strategy_resource_name
      ("customers/" ++ customer_id ++ "/biddingStrategies/")) then
    { result := Except.error (PyErr.valueError
        ("Invalid bidding_strategy_resource_name format for customer " ++
         customer_id ++ ".")),
      mutateCalls := [] }
  else
    let r := _apply_bidding_strategy_details StrategyObj.fresh strategy_type []
      strategy_details
    if !r.ok then
      { result := Except.error (PyErr.valueError
          ("Failed to apply bidding strategy details for type: " ++
           strategy_type)),
        mutateCalls := [] }
    else
      let final_mask_paths := pySortedSet r.paths
      match env.mutateOutcome with
      | Except.ok rn =>
        { result := Except.ok
            [("success", PyValue.bool true), ("resource_name", PyValue.str rn)],
          mutateCalls := [{ maskPaths := final_mask_paths }] }
      | Except.error ex =>
        { result := Except.error (PyErr.runtimeError
            [PyValue.str ("Failed to update portfolio bidding strategy: " ++
              renderFailure ex.failure)] (some ex)),
          mutateCalls := [{ maskPaths := final_mask_paths }] }

/-- An action record as built by `log_action` in `core/action_logger.py`.
`datetime.utcnow()` is modelled by a monotone counter carried in the logger
state. -/
structure Action where
  timestamp : Nat
  tool : String
  params : Dict
  description : String
  simulated : Bool
  result : Option Dict := Option.none
  deriving DecidableEq, Repr

/-- State of the action-logger module.  Python lists are objects with
identity: `cells` is a tiny heap of list objects, `cells[0]` being the
module-global `_actions`; `get_actions` allocates a fresh cell (the
`list(_actions)` copy) and hands back its index, so that mutation of a
returned list is distinguishable from mutation of the global. -/
structure LogState where
  cells : List (List Action) := [[]]
  clock : Nat := 0
  deriving DecidableEq, Repr

/-- The initial module state: one empty global `_actions` list. -/
def LogState.init : LogState := {}

/-- Contents of the list object behind reference `i`. -/
def LogState.contents (s : LogState) (i : Nat) : List Action :=
  s.cells.getD i []

/-- In-place mutation of the list object behind reference `i` (what a caller
does when it mutates a list it was handed). -/
def LogState.mutateList (s : LogState) (i : Nat) (l : List Action) : LogState :=
  { s with cells := s.cells.set i l }

/-- Embeds `log_action`: builds the action dict and appends it to the
module-global list under the lock; returns the stored record. -/
def log_action (tool_name : String) (params : Dict) (description : String)
    (simulated : Bool) (result : Option Dict) (s : LogState) :
    Action × LogState :=
  let action : Action :=
    { timestamp := s.clock, tool := tool_name, params := params,
      description := description, simulated := simulated, result := result }
  (action,
   { s with cells := s.cells.set 0 (s.contents 0 ++ [action]),
            clock := s.clock + 1 })

/-- Embeds `clear_actions`: empties the module-global list. -/
def clear_actions (s : LogState) : LogState :=
  { s with cells := s.cells.set 0 [] }

/-- Embeds `get_actions`: returns `list(_actions)` — a fresh list object
holding a copy of the global contents — as a reference to a new cell. -/
def get_actions (s : LogState) : Nat × LogState :=
  (s.cells.length, { s with cells := s.cells ++ [s.contents 0] })

/-- Embeds the dry-run helper `_log_action` of `dry_run_updater.py`: logs a
simulated action through the unified logger and returns the simulated
success dict. -/
def _log_action (tool_name : String) (params : Dict) (description : String)
    (s : LogState) : Dict × LogState :=
  let (_, s) := log_action tool_name params description true Option.none s
  ([("success", PyValue.bool true),
    ("dry_run", PyValue.bool true),
    ("message", PyValue.str ("[DRY-RUN] " ++ description)),
    ("resource_name", PyValue.str ("simulated/" ++
      pyStr ((params.lookup "campaign_id").getD (PyValue.str "unknown"))))],
   s)

/-- Embeds `dry_run_update_campaign_status`. -/
def dry_run_update_campaign_status (customer_id campaign_id status : String)
    (s : LogState) : Dict × LogState :=
  _log_action "update_google_ads_campaign_status"
    [("customer_id", PyValue.str customer_id),
     ("campaign_id", PyValue.str campaign_id),
     ("status", PyValue.str status)]
    ("Change campaign " ++ campaign_id ++ " status to " ++ status) s

/-- One campaign entry of the customer's campaign configuration
(`{campaignId, instruction}`). -/
structure CampaignCfg where
  campaignId : Option String
  instruction : Option String := Option.none
  deriving DecidableEq, Repr

/-- Outcome of one per-campaign agent invocation: normal completion or a
raised exception. -/
inductive AgentOutcome where
  | ok
  | raises (msg : String)
  deriving DecidableEq, Repr

/-- Environment of one `run_decision_agent` call: the global instruction as
computed by step 1 (empty when the document is missing or the fetch raised),
the configured campaigns of step 2, the run id issued by `log_run_start`,
and the behaviour of each per-campaign agent invocation. -/
structure DecisionEnv where
  globalInstruction : String
  campaigns : List CampaignCfg
  runId : String := "run-1"
  agentRun : String → AgentOutcome

/-- The dict `run_decision_agent` returns. -/
structure RunResult where
  run_id : String
  status : String
  dry_run : Bool
  campaigns_processed : Option Nat := Option.none
  actions : List Action
  deriving DecidableEq, Repr

/-- The per-campaign loop of `run_decision_agent`: campaigns without a
`campaignId` are skipped, every other campaign gets an agent invocation, and
a raising invocation is caught and logged before the loop continues with the
next campaign.  Returns the ids of the campaigns whose agent was invoked, in
order. -/
def decisionLoop (agentRun : String → AgentOutcome) :
    List CampaignCfg → List String
  | [] => []
  | c :: rest =>
    match c.campaignId with
    | Option.none => decisionLoop agentRun rest
    | Option.some cid =>
      match agentRun cid with
      | AgentOutcome.ok => cid :: decisionLoop agentRun rest
      | AgentOutcome.raises _ => cid :: decisionLoop agentRun rest

/-- Embeds `run_decision_agent`: clears the action log, aborts with
`cancelled` on an empty global instruction, returns a no-op `success` on an
empty campaign list, otherwise runs the per-campaign loop and completes with
`status="success"` and the collected actions.  The returned trace is the
list of campaign ids whose agent was invoked. -/
def run_decision_agent (env : DecisionEnv) (dry_run : Bool) (s : LogState) :
    RunResult × List String × LogState :=
  let s := clear_actions s
  if env.globalInstruction = "" then
    ({ run_id := env.runId, status := "cancelled", dry_run := dry_run,
       actions := [] }, [], s)
  else if env.campaigns.isEmpty then
    ({ run_id := env.runId, status := "success", dry_run := dry_run,
       actions := [] }, [], s)
  else
    let trace := decisionLoop env.agentRun env.campaigns
    let actions := s.contents 0
    ({ run_id := env.runId, status := "success", dry_run := dry_run,
       campaigns_processed := some env.campaigns.length,
       actions := actions }, trace, s)

/-- A run document of the `AgenticRunLogs` collection, with the fields
`get_run_history` reads; `started_at` is modelled as a number so the
newest-first ordering is total. -/
structure RunDoc where
  id : String
  customer_id : String
  dry_run : Bool
  started_at : Nat
  deriving DecidableEq, Repr

/-- Insertion into a list sorted by `started_at` descending (newest
first). -/
def insertDesc (d : RunDoc) : List RunDoc → List RunDoc
  | [] => [d]
  | x :: xs =>
    if x.started_at ≤ d.started_at then d :: x :: xs else x :: insertDesc d xs

/-- The backing query's `order_by("started_at", DESCENDING)`. -/
def sortRunsDesc (l : List RunDoc) : List RunDoc :=
  l.foldr insertDesc []

/-- Embeds `get_run_history`: the backing query filters by customer, orders
newest first and applies `limit`; the dry-run filter is applied in Python
afterwards, inside the loop over the already-limited stream. -/
def get_run_history (db : List RunDoc) (customer_id : String) (limit : Nat)
    (include_dry_runs : Bool) : List RunDoc :=
  let docs :=
    (sortRunsDesc (db.filter (fun d => d.customer_id = customer_id))).take limit
  docs.filter (fun d => include_dry_runs || !d.dry_run)

/-- Arguments of one `log_action` call (used to state properties of call
sequences). -/
structure LogCall where
  tool_name : String
  params : Dict
  description : String
  simulated : Bool
  result : Option Dict
  deriving DecidableEq, Repr

/-- Performing one logged call: the state transition of `log_action`. -/
def logStep (s : LogState) (e : LogCall) : LogState :=
  (log_action e.tool_name e.params e.description e.simulated e.result s).2

/-- The action records a sequence of log calls produces, starting at clock
`c`: one record per call, in call order. -/
def mkLoggedActions (c : Nat) : List LogCall → List Action
  | [] => []
  | e :: rest =>
    { timestamp := c, tool := e.tool_name, params := e.params,
      description := e.description, simulated := e.simulated,
      result := e.result } :: mkLoggedActions (c + 1) rest

/-! ## Theorems settling the claims -/

/-- C1: evaluation of the strategy builder at the claim's own example
inputs.  Applying PERCENT_CPC with `enhanced_cpc_enabled` present sets
`percent_cpc.enhanced_cpc_enabled` on the mutation object but does not
record its path in the accumulator, and applying MAXIMIZE_CONVERSIONS with
no details records `maximize_conversions.target_cpa_micros` although no
sub-field was set — both directions of the field-mask invariant fail. -/
theorem C1_field_mask_invariant_violated :
    (let r := _apply_bidding_strategy_details StrategyObj.fresh "PERCENT_CPC" []
        (some [("enhanced_cpc_enabled", PyValue.bool true)])
     r.ok = true ∧
     r.obj.pc_enhanced_cpc_enabled = some (PyValue.bool true) ∧
     r.paths = ["percent_cpc.cpc_bid_ceiling_micros"] ∧
     "percent_cpc.enhanced_cpc_enabled" ∈ setSubFieldPaths r.obj ∧
     "percent_cpc.enhanced_cpc_enabled" ∉ r.paths) ∧
    (let r := _apply_bidding_strategy_details StrategyObj.fresh
        "MAXIMIZE_CONVERSIONS" [] Option.none
     r.ok = true ∧
     r.paths = ["maximize_conversions.target_cpa_micros"] ∧
     setSubFieldPaths r.obj = []) := by
  decide

/-- C3: the field-mask path list attached at submission time is
`["status", "status"]` for `update_campaign_status` (a duplicate, not
deduplicated) and is unsorted for `update_bidding_strategy` (the
`bidding_strategy` path is appended after the strategy sub-field path);
in both cases the attached list differs from its deduplicated sorted
form. -/
theorem C3_submitted_mask_not_deduped_sorted :
    (update_campaign_status
        { clientOk := true, campaignDetails := [], mutateOutcome := Except.ok "rn" }
        "1" "2" "PAUSED").mutateCalls
      = [{ maskPaths := ["status", "status"] }] ∧
    ["status", "status"] ≠ pySortedSet ["status", "status"] ∧
    (update_bidding_strategy
        { clientOk := true,
          campaignDetails := [("advertisingChannelType", PyValue.str "SEARCH")],
          mutateOutcome := Except.ok "rn" }
        "1" "2" "MAXIMIZE_CONVERSIONS" Option.none).mutateCalls
      = [{ maskPaths := ["maximize_conversions.target_cpa_micros", "bidding_strategy"] }] ∧
    ["maximize_conversions.target_cpa_micros", "bidding_strategy"]
      ≠ pySortedSet ["maximize_conversions.target_cpa_micros", "bidding_strategy"] := by
  decide

/-- C4 counterexample: with the argument tuple
`("1", "2", "INVALID")` the dry-run tool returns a simulated success dict
while the real tool raises `ValueError` before any backend call, so the
two toolsets do not give the same control flow on every argument tuple. -/
theorem C4_counterexample_invalid_status :
    ((dry_run_update_campaign_status "1" "2" "INVALID" LogState.init).1.lookup "success"
       = some (PyValue.bool true)) ∧
    ((dry_run_update_campaign_status "1" "2" "INVALID" LogState.init).1.lookup "dry_run"
       = some (PyValue.bool true)) ∧
    (update_campaign_status
        { clientOk := true, campaignDetails := [], mutateOutcome := Except.ok "rn" }
        "1" "2" "INVALID").result
      = Except.error (PyErr.valueError
          "Invalid status provided: INVALID. Use ENABLED or PAUSED.") ∧
    (update_campaign_status
        { clientOk := true, campaignDetails := [], mutateOutcome := Except.ok "rn" }
        "1" "2" "INVALID").mutateCalls = [] := by
  decide

/-- C5 counterexample: on a backend rejection carrying two structured
errors, `update_bidding_strategy` raises a `RuntimeError` whose own
argument list is a single flattened string; the structured error list is
not among the raised error's arguments (it survives only as the chained
cause). -/
theorem C5_counterexample_flattened_failure :
    (update_bidding_strategy
        { clientOk := true,
          campaignDetails := [("advertisingChannelType", PyValue.str "SEARCH")],
          mutateOutcome := Except.error
            ⟨⟨[⟨"QUOTA_ERROR", "rate"⟩, ⟨"FIELD_ERROR", "bad"⟩]⟩⟩ }
        "1" "2" "MAXIMIZE_CONVERSIONS" Option.none).result
      = Except.error (PyErr.runtimeError
          [PyValue.str
            "Failed to update bidding strategy: QUOTA_ERROR: rate; FIELD_ERROR: bad"]
          (some ⟨⟨[⟨"QUOTA_ERROR", "rate"⟩, ⟨"FIELD_ERROR", "bad"⟩]⟩⟩)) ∧
    PyValue.errList [⟨"QUOTA_ERROR", "rate"⟩, ⟨"FIELD_ERROR", "bad"⟩]
      ∉ [PyValue.str
          "Failed to update bidding strategy: QUOTA_ERROR: rate; FIELD_ERROR: bad"] := by
  decide

/-- C6 counterexample: `location="UNSPECIFIED"` is not one of the three
page-location members yet the apply succeeds (the enum lookup also accepts
`UNSPECIFIED` and `UNKNOWN`), and on the failing `location="INVALID"` input
the target object is not unchanged — the `target_impression_share` oneof
variant has already been activated before the location was validated. -/
theorem C6_counterexample_location_gate :
    (let r := _apply_bidding_strategy_details StrategyObj.fresh
        "TARGET_IMPRESSION_SHARE" []
        (some [("location", PyValue.str "UNSPECIFIED"),
               ("location_fraction_micros", PyValue.int 300000)])
     r.ok = true) ∧
    (let r := _apply_bidding_strategy_details StrategyObj.fresh
        "TARGET_IMPRESSION_SHARE" []
        (some [("location", PyValue.str "INVALID"),
               ("location_fraction_micros", PyValue.int 300000)])
     r.ok = false ∧ r.paths = [] ∧ r.obj ≠ StrategyObj.fresh ∧
     r.obj.oneofCase = StrategyOneof.target_impression_share) := by
  decide

/-- C10: `get_run_history` with `include_dry_runs=False` equals the
newest-first customer query truncated to `limit` and only then filtered of
dry runs; consequently on a store holding two dry runs (newest) and two
real runs for customer `c`, a `limit=2` call returns no records although
two non-dry-run records exist. -/
theorem C10_limit_applied_before_dry_run_filter :
    (∀ (db : List RunDoc) (cust : String) (limit : Nat),
      get_run_history db cust limit false =
        ((sortRunsDesc (db.filter (fun d => d.customer_id = cust))).take limit).filter
          (fun d => !d.dry_run)) ∧
    (get_run_history
        [⟨"a", "c", true, 4⟩, ⟨"b", "c", true, 3⟩,
         ⟨"d", "c", false, 2⟩, ⟨"e", "c", false, 1⟩] "c" 2 false = [] ∧
     ([⟨"a", "c", true, 4⟩, ⟨"b", "c", true, 3⟩,
       ⟨"d", "c", false, 2⟩, ⟨"e", "c", false, 1⟩] : List RunDoc).countP
        (fun d => d.customer_id = "c" ∧ d.dry_run = false) = 2) := by
  refine ⟨fun db cust limit => ?_, by decide⟩
  simp [get_run_history]


/-- Every channel string with an entry in `ALLOWED_STRATEGIES` is one of the
five known channel keys. -/
theorem lookup_ALLOWED_keys :
    ∀ (c : String) (al : List String),
      ALLOWED_STRATEGIES.lookup c = some al →
      (c = "PERFORMANCE_MAX" ∨ c = "SEARCH" ∨
       c = "DISPLAY" ∨ c = "VIDEO" ∨ c = "HOTEL") := by
  intro c al hA
  by_contra hcon
  push_neg at hcon
  obtain ⟨h1, h2, h3, h4, h5⟩ := hcon
  simp [ALLOWED_STRATEGIES, List.lookup,
    beq_eq_false_iff_ne.mpr h1, beq_eq_false_iff_ne.mpr h2,
    beq_eq_false_iff_ne.mpr h3, beq_eq_false_iff_ne.mpr h4,
    beq_eq_false_iff_ne.mpr h5] at hA

/-- Every channel with an allowed-strategies entry also has a
prohibited-strategies entry. -/
theorem lookup_PROHIBITED_of_ALLOWED :
    ∀ (c : String) (al : List String),
      ALLOWED_STRATEGIES.lookup c = some al →
      ∃ pr, PROHIBITED_STRATEGIES.lookup c = some pr := by
  intro c al hA
  rcases lookup_ALLOWED_keys c al hA with hc | hc | hc | hc | hc <;>
    subst hc <;> exact Option.isSome_iff_exists.mp (by decide)

/-- With the current table data, no channel's allowed list meets its
prohibited list. -/
theorem mem_allowed_not_prohibited :
    ∀ (c : String) (al pr : List String),
      ALLOWED_STRATEGIES.lookup c = some al →
      PROHIBITED_STRATEGIES.lookup c = some pr →
      ∀ t ∈ al, t ∉ pr := by
  intro c al pr hA hP t ht
  rcases lookup_ALLOWED_keys c al hA with hc | hc | hc | hc | hc <;>
    subst hc <;>
    simp [ALLOWED_STRATEGIES, PROHIBITED_STRATEGIES, List.lookup] at hA hP <;>
    subst hA <;> subst hP <;>
    fin_cases ht <;> decide

/-- On a known channel, `validate_strategy_change` computes the two
membership gates of the source. -/
theorem validate_eq_core (ch st : String) (al pr : List String)
    (hA : ALLOWED_STRATEGIES.lookup (pyUpper ch) = some al)
    (hP : PROHIBITED_STRATEGIES.lookup (pyUpper ch) = some pr) :
    validate_strategy_change ch st =
      (if pyUpper st ∉ al then false
       else if pyUpper st ∈ pr then false else true) := by
  simp only [validate_strategy_change, hA, hP]

/-- The two-gate decision is equivalent to allowed-minus-prohibited
membership, and under disjointness to plain allowed membership. -/
theorem core_iff (t : String) (al pr : List String)
    (hdisj : ∀ x ∈ al, x ∉ pr) :
    ((if t ∉ al then false else if t ∈ pr then false else true) = true ↔
      (t ∈ al ∧ t ∉ pr)) ∧
    ((if t ∉ al then false else if t ∈ pr then false else true) = true ↔
      t ∈ al) := by
  by_cases hm : t ∈ al
  · have hp := hdisj t hm
    simp [hm, hp]
  · simp [hm]

/-- C2: `validate_strategy_change` upper-cases both inputs and denies every
channel without an allowed-strategies entry; for a known channel it returns
true iff the upper-cased strategy is in the channel's allowed list and not
in its prohibited list — and with the current table data this is equivalent
to plain allowed-list membership. -/
theorem C2_validate_strategy_change_table :
    ∀ (channel_type target_strategy : String),
      (ALLOWED_STRATEGIES.lookup (pyUpper channel_type) = Option.none →
        validate_strategy_change channel_type target_strategy = false) ∧
      (∀ allowed, ALLOWED_STRATEGIES.lookup (pyUpper channel_type) = some allowed →
        ((validate_strategy_change channel_type target_strategy = true ↔
          (pyUpper target_strategy ∈ allowed ∧
           pyUpper target_strategy ∉
             (PROHIBITED_STRATEGIES.lookup (pyUpper channel_type)).getD [])) ∧
         (validate_strategy_change channel_type target_strategy = true ↔
           pyUpper target_strategy ∈ allowed))) := by
  intro ch st
  constructor
  · intro h
    simp only [validate_strategy_change, h]
  · intro allowed h
    obtain ⟨pr, hP⟩ := lookup_PROHIBITED_of_ALLOWED (pyUpper ch) allowed h
    have hdisj := mem_allowed_not_prohibited (pyUpper ch) allowed pr h hP
    rw [validate_eq_core ch st allowed pr h hP, hP, Option.getD_some]
    exact core_iff (pyUpper st) allowed pr hdisj

/-- C2 witness: the theorem instantiated at a known channel with an allowed
strategy (lower-case inputs) and at an unknown channel. -/
theorem C2_validate_strategy_change_witness :
    validate_strategy_change "search" "manual_cpc" = true ∧
    validate_strategy_change "RADIO" "MANUAL_CPC" = false := by
  constructor
  · exact (((C2_validate_strategy_change_table "search" "manual_cpc").2
      ["MANUAL_CPC", "TARGET_SPEND", "MAXIMIZE_CONVERSIONS",
       "MAXIMIZE_CONVERSION_VALUE", "TARGET_IMPRESSION_SHARE"]
      (by decide)).2).mpr (by decide)
  · exact (C2_validate_strategy_change_table "RADIO" "MANUAL_CPC").1 (by decide)


/-- A dict that contains a key is truthy. -/
theorem dictHas_truthy {d : Option Dict} {k : String}
    (h : dictHas d k = true) : dictTruthy d = true := by
  simp only [dictHas, Bool.and_eq_true] at h
  exact h.1

/-- The dispatcher routes TARGET_IMPRESSION_SHARE to its helper. -/
theorem dispatch_tis (obj : StrategyObj) (paths : List String)
    (d : Option Dict) :
    _apply_bidding_strategy_details obj "TARGET_IMPRESSION_SHARE" paths d =
      _apply_target_impression_share obj paths d := by
  simp [_apply_bidding_strategy_details]

/-- The dispatcher routes TARGET_CPA to its helper. -/
theorem dispatch_target_cpa (obj : StrategyObj) (paths : List String)
    (d : Option Dict) :
    _apply_bidding_strategy_details obj "TARGET_CPA" paths d =
      _apply_target_cpa obj paths d := by
  simp [_apply_bidding_strategy_details]

/-- The dispatcher routes TARGET_ROAS to its helper. -/
theorem dispatch_target_roas (obj : StrategyObj) (paths : List String)
    (d : Option Dict) :
    _apply_bidding_strategy_details obj "TARGET_ROAS" paths d =
      _apply_target_roas obj paths d := by
  simp [_apply_bidding_strategy_details]

/-- C6 (amended): applying TARGET_IMPRESSION_SHARE fails on a missing
`location` / `location_fraction_micros` key with the state fully unchanged;
when the keys are present but the upper-cased location names no member of
the location enum it fails with the accumulator and sub-fields unchanged but
the `target_impression_share` variant already activated; when the location
names an enum member (which besides the three page locations includes
`UNSPECIFIED` and `UNKNOWN`) it succeeds, sets both fields and records both
paths, plus the bid ceiling when that key is present. -/
theorem C6_target_impression_share_characterization :
    ∀ (strategy_details : Option Dict) (obj : StrategyObj) (paths : List String),
      ((dictHas strategy_details "location" = false ∨
        dictHas strategy_details "location_fraction_micros" = false) →
        _apply_bidding_strategy_details obj "TARGET_IMPRESSION_SHARE" paths strategy_details
          = { obj := obj, paths := paths, ok := false }) ∧
      (∀ locStr,
        dictHas strategy_details "location" = true →
        dictHas strategy_details "location_fraction_micros" = true →
        dictGet strategy_details "location" = PyValue.str locStr →
        locationEnumByName (pyUpper locStr) = Option.none →
        _apply_bidding_strategy_details obj "TARGET_IMPRESSION_SHARE" paths strategy_details
          = { obj := { obj with oneofCase := StrategyOneof.target_impression_share },
              paths := paths, ok := false }) ∧
      (∀ locStr loc,
        dictHas strategy_details "location" = true →
        dictHas strategy_details "location_fraction_micros" = true →
        dictGet strategy_details "location" = PyValue.str locStr →
        locationEnumByName (pyUpper locStr) = some loc →
        (_apply_bidding_strategy_details obj "TARGET_IMPRESSION_SHARE" paths strategy_details).ok = true ∧
        (_apply_bidding_strategy_details obj "TARGET_IMPRESSION_SHARE" paths strategy_details).obj.tis_location = some loc ∧
        (_apply_bidding_strategy_details obj "TARGET_IMPRESSION_SHARE" paths strategy_details).obj.tis_location_fraction_micros
          = some (dictGet strategy_details "location_fraction_micros") ∧
        (dictHas strategy_details "cpc_bid_ceiling_micros" = false →
          (_apply_bidding_strategy_details obj "TARGET_IMPRESSION_SHARE" paths strategy_details).paths
            = paths ++ ["target_impression_share.location",
                        "target_impression_share.location_fraction_micros"]) ∧
        (dictHas strategy_details "cpc_bid_ceiling_micros" = true →
          (_apply_bidding_strategy_details obj "TARGET_IMPRESSION_SHARE" paths strategy_details).obj.tis_cpc_bid_ceiling_micros
            = some (dictGet strategy_details "cpc_bid_ceiling_micros") ∧
          (_apply_bidding_strategy_details obj "TARGET_IMPRESSION_SHARE" paths strategy_details).paths
            = paths ++ ["target_impression_share.location",
                        "target_impression_share.location_fraction_micros",
                        "target_impression_share.cpc_bid_ceiling_micros"])) := by
  intro d obj paths
  rw [dispatch_tis]
  refine ⟨?_, ?_, ?_⟩
  · intro hmiss
    rcases hmiss with h | h <;>
      · have ht : dictTruthy d = false ∨ dictHas d "location" = false ∨
            dictHas d "location_fraction_micros" = false := by tauto
        simp only [_apply_target_impression_share]
        rcases ht with h2 | h2 | h2 <;> simp [h, h2]
  · intro locStr h1 h2 hv hn
    simp [_apply_target_impression_share, h1, h2, hv, hn, dictHas_truthy h1]
  · intro locStr loc h1 h2 hv hs
    by_cases h3 : dictHas d "cpc_bid_ceiling_micros" <;>
      simp [_apply_target_impression_share, h1, h2, hv, hs, h3,
        dictHas_truthy h1]

/-- C6 witness: the amended theorem instantiated at the spec's own positive
example (`TOP_OF_PAGE`, 300000) and at a missing-details input. -/
theorem C6_target_impression_share_witness :
    ((_apply_bidding_strategy_details StrategyObj.fresh "TARGET_IMPRESSION_SHARE" []
        (some [("location", PyValue.str "TOP_OF_PAGE"),
               ("location_fraction_micros", PyValue.int 300000)])).ok = true ∧
     (_apply_bidding_strategy_details StrategyObj.fresh "TARGET_IMPRESSION_SHARE" []
        (some [("location", PyValue.str "TOP_OF_PAGE"),
               ("location_fraction_micros", PyValue.int 300000)])).obj.tis_location
       = some TargetImpressionShareLocation.TOP_OF_PAGE) ∧
    _apply_bidding_strategy_details StrategyObj.fresh "TARGET_IMPRESSION_SHARE" [] Option.none
      = { obj := StrategyObj.fresh, paths := [], ok := false } := by
  refine ⟨⟨?_, ?_⟩, ?_⟩
  · exact ((C6_target_impression_share_characterization
      (some [("location", PyValue.str "TOP_OF_PAGE"),
             ("location_fraction_micros", PyValue.int 300000)])
      StrategyObj.fresh []).2.2 "TOP_OF_PAGE" TargetImpressionShareLocation.TOP_OF_PAGE
      (by decide) (by decide) (by decide) (by decide)).1
  · exact ((C6_target_impression_share_characterization
      (some [("location", PyValue.str "TOP_OF_PAGE"),
             ("location_fraction_micros", PyValue.int 300000)])
      StrategyObj.fresh []).2.2 "TOP_OF_PAGE" TargetImpressionShareLocation.TOP_OF_PAGE
      (by decide) (by decide) (by decide) (by decide)).2.1
  · exact (C6_target_impression_share_characterization Option.none
      StrategyObj.fresh []).1 (Or.inl (by decide))

/-- C8: applying the portfolio-only types through the dispatcher fails
exactly when the single required detail key is absent; when it is present
the sub-field is set to the supplied value and its dotted path appended. -/
theorem C8_portfolio_required_details :
    ∀ (strategy_details : Option Dict) (obj : StrategyObj) (paths : List String),
      ((_apply_bidding_strategy_details obj "TARGET_CPA" paths strategy_details).ok = true ↔
        dictHas strategy_details "target_cpa_micros" = true) ∧
      (dictHas strategy_details "target_cpa_micros" = true →
        (_apply_bidding_strategy_details obj "TARGET_CPA" paths strategy_details).obj.tcpa_target_cpa_micros
            = some (dictGet strategy_details "target_cpa_micros") ∧
        (_apply_bidding_strategy_details obj "TARGET_CPA" paths strategy_details).paths
            = paths ++ ["target_cpa.target_cpa_micros"]) ∧
      ((_apply_bidding_strategy_details obj "TARGET_ROAS" paths strategy_details).ok = true ↔
        dictHas strategy_details "target_roas" = true) ∧
      (dictHas strategy_details "target_roas" = true →
        (_apply_bidding_strategy_details obj "TARGET_ROAS" paths strategy_details).obj.troas_target_roas
            = some (dictGet strategy_details "target_roas") ∧
        (_apply_bidding_strategy_details obj "TARGET_ROAS" paths strategy_details).paths
            = paths ++ ["target_roas.target_roas"]) := by
  intro d obj paths
  rw [dispatch_target_cpa, dispatch_target_roas]
  by_cases h1 : dictHas d "target_cpa_micros" <;>
    by_cases h2 : dictHas d "target_roas" <;>
    simp [_apply_target_cpa, _apply_target_roas, h1, h2]

/-- C8 witness: the theorem instantiated at the spec's own examples —
TARGET_CPA with no details fails, with `target_cpa_micros=5000000` it
succeeds. -/
theorem C8_portfolio_required_details_witness :
    (_apply_bidding_strategy_details StrategyObj.fresh "TARGET_CPA" [] Option.none).ok = false ∧
    (_apply_bidding_strategy_details StrategyObj.fresh "TARGET_CPA" []
      (some [("target_cpa_micros", PyValue.int 5000000)])).ok = true ∧
    (_apply_bidding_strategy_details StrategyObj.fresh "TARGET_CPA" []
      (some [("target_cpa_micros", PyValue.int 5000000)])).paths
      = ["target_cpa.target_cpa_micros"] := by
  refine ⟨?_, ?_, ?_⟩
  · exact Bool.eq_false_iff.mpr (fun hc => absurd
      ((C8_portfolio_required_details Option.none StrategyObj.fresh []).1.mp hc)
      (by decide))
  · exact (C8_portfolio_required_details
      (some [("target_cpa_micros", PyValue.int 5000000)]) StrategyObj.fresh []).1.mpr
      (by decide)
  · exact ((C8_portfolio_required_details
      (some [("target_cpa_micros", PyValue.int 5000000)]) StrategyObj.fresh []).2.1
      (by decide)).2


/-- Helper: writing the global cell of a nonempty heap is read back. -/
theorem set_zero_getD (l : List (List Action)) (x : List Action)
    (h : l ≠ []) : (l.set 0 x).getD 0 [] = x := by
  cases l with
  | nil => exact absurd rfl h
  | cons a as => rfl

/-- Helper: writing the global cell keeps the heap nonempty. -/
theorem set_length_ne_nil (l : List (List Action)) (x : List Action)
    (h : l ≠ []) : l.set 0 x ≠ [] := by
  cases l with
  | nil => exact absurd rfl h
  | cons a as => simp

/-- Folding a sequence of log calls appends exactly their records, in call
order, to the global list, preserving the heap shape. -/
theorem foldLog :
    ∀ (calls : List LogCall) (s : LogState), s.cells ≠ [] →
      ((calls.foldl logStep s).contents 0
         = s.contents 0 ++ mkLoggedActions s.clock calls ∧
       (calls.foldl logStep s).cells.length = s.cells.length ∧
       (calls.foldl logStep s).cells ≠ [] ∧
       (calls.foldl logStep s).clock = s.clock + calls.length) := by
  intro calls
  induction calls with
  | nil => intro s h; simp [mkLoggedActions, h]
  | cons e rest ih =>
    intro s h
    have hstep : (logStep s e).cells ≠ [] := by
      simp only [logStep, log_action]
      exact set_length_ne_nil _ _ h
    obtain ⟨ih1, ih2, ih3, ih4⟩ := ih (logStep s e) hstep
    have hc : (logStep s e).contents 0 = s.contents 0 ++
        [{ timestamp := s.clock, tool := e.tool_name, params := e.params,
           description := e.description, simulated := e.simulated,
           result := e.result }] := by
      simp only [logStep, log_action, LogState.contents]
      exact set_zero_getD _ _ h
    have hclock : (logStep s e).clock = s.clock + 1 := rfl
    have hlen : (logStep s e).cells.length = s.cells.length := by
      simp [logStep, log_action]
    refine ⟨?_, ?_, ih3, ?_⟩
    · rw [List.foldl_cons, ih1, hc, hclock]
      simp [mkLoggedActions, List.append_assoc]
    · rw [List.foldl_cons, ih2, hlen]
    · rw [List.foldl_cons, ih4, hclock]
      simp [List.length_cons]
      omega

/-- A log-call sequence produces one record per call. -/
theorem mkLoggedActions_length :
    ∀ (c : Nat) (calls : List LogCall),
      (mkLoggedActions c calls).length = calls.length := by
  intro c calls
  induction calls generalizing c with
  | nil => rfl
  | cons e rest ih => simp [mkLoggedActions, ih]

/-- Helper: the freshly appended cell is read back at the old length. -/
theorem getD_concat_length :
    ∀ (l : List (List Action)) (x : List Action),
      (l ++ [x]).getD l.length [] = x := by
  intro l x
  induction l with
  | nil => rfl
  | cons a as ih => exact ih

/-- Helper: appending a cell does not move the global cell. -/
theorem getD_append_zero (l : List (List Action)) (x : List Action)
    (h : l ≠ []) : (l ++ [x]).getD 0 [] = l.getD 0 [] := by
  cases l with
  | nil => exact absurd rfl h
  | cons a as => rfl

/-- Helper: writing the appended cell does not touch the global cell. -/
theorem getD_set_at_len (l : List (List Action)) (x y : List Action)
    (h : l ≠ []) :
    ((l ++ [x]).set l.length y).getD 0 [] = (l ++ [x]).getD 0 [] := by
  cases l with
  | nil => exact absurd rfl h
  | cons a as => rfl

/-- C9: after `clear_actions` and N `log_action` calls, the stored log holds
exactly the N records in call order; `get_actions` returns a snapshot with
the same contents, and mutating the returned list object leaves the stored
log unchanged. -/
theorem C9_action_logger_snapshot :
    ∀ (calls : List LogCall) (s0 : LogState), s0.cells ≠ [] →
      ((calls.foldl logStep (clear_actions s0)).contents 0
         = mkLoggedActions s0.clock calls) ∧
      ((get_actions (calls.foldl logStep (clear_actions s0))).2.contents
          (get_actions (calls.foldl logStep (clear_actions s0))).1
        = mkLoggedActions s0.clock calls) ∧
      ((mkLoggedActions s0.clock calls).length = calls.length) ∧
      (∀ l, ((get_actions (calls.foldl logStep (clear_actions s0))).2.mutateList
          (get_actions (calls.foldl logStep (clear_actions s0))).1 l).contents 0
        = mkLoggedActions s0.clock calls) := by
  intro calls s0 h0
  have hclear : (clear_actions s0).cells ≠ [] := set_length_ne_nil _ _ h0
  have hcc : (clear_actions s0).contents 0 = [] := by
    simp only [clear_actions, LogState.contents]
    exact set_zero_getD _ _ h0
  have hck : (clear_actions s0).clock = s0.clock := rfl
  obtain ⟨h1, h2, h3, h4⟩ := foldLog calls (clear_actions s0) hclear
  have hlog : (calls.foldl logStep (clear_actions s0)).contents 0
      = mkLoggedActions s0.clock calls := by
    rw [h1, hcc, hck]
    simp
  refine ⟨hlog, ?_, mkLoggedActions_length _ _, ?_⟩
  · simp only [get_actions, LogState.contents]
    rw [getD_concat_length]
    exact hlog
  · intro l
    simp only [get_actions, LogState.mutateList, LogState.contents]
    rw [getD_set_at_len _ _ _ h3, getD_append_zero _ _ h3]
    exact hlog

/-- C9 witness: the theorem instantiated at two concrete log calls from the
initial module state, with the produced records computed explicitly. -/
theorem C9_action_logger_snapshot_witness :
    (([⟨"t1", [], "d1", true, Option.none⟩,
       ⟨"t2", [], "d2", false, Option.none⟩] :
        List LogCall).foldl logStep (clear_actions LogState.init)).contents 0
      = mkLoggedActions LogState.init.clock
          [⟨"t1", [], "d1", true, Option.none⟩,
           ⟨"t2", [], "d2", false, Option.none⟩] ∧
    mkLoggedActions LogState.init.clock
        [⟨"t1", [], "d1", true, Option.none⟩,
         ⟨"t2", [], "d2", false, Option.none⟩]
      = [{ timestamp := 0, tool := "t1", params := [], description := "d1",
           simulated := true, result := Option.none },
         { timestamp := 1, tool := "t2", params := [], description := "d2",
           simulated := false, result := Option.none }] :=
  ⟨(C9_action_logger_snapshot
      [⟨"t1", [], "d1", true, Option.none⟩,
       ⟨"t2", [], "d2", false, Option.none⟩]
      LogState.init (by decide)).1,
   by decide⟩

/-- The per-campaign loop invokes the agent for every campaign that has an
id, whatever the outcomes of the invocations. -/
theorem decisionLoop_filterMap :
    ∀ (f : String → AgentOutcome) (cs : List CampaignCfg),
      decisionLoop f cs = cs.filterMap (fun c => c.campaignId) := by
  intro f cs
  induction cs with
  | nil => rfl
  | cons c rest ih =>
    cases hc : c.campaignId with
    | none => simp [decisionLoop, hc, ih]
    | some cid =>
      cases hf : f cid <;> simp [decisionLoop, hc, hf, ih]

/-- C7: with a nonempty global instruction the run always completes with
`status="success"`, and every campaign with an id is processed — raising
agent invocations included, so a per-campaign failure neither stops the loop
nor changes the run status. -/
theorem C7_per_campaign_failures_do_not_abort :
    ∀ (env : DecisionEnv) (dry_run : Bool) (s : LogState),
      env.globalInstruction ≠ "" →
      ((run_decision_agent env dry_run s).1.status = "success" ∧
       (run_decision_agent env dry_run s).2.1
         = env.campaigns.filterMap (fun c => c.campaignId)) := by
  intro env dr s h
  by_cases he : env.campaigns.isEmpty
  · have hnil : env.campaigns = [] := List.isEmpty_iff.mp he
    simp [run_decision_agent, h, he, hnil]
  · simp [run_decision_agent, h, he, decisionLoop_filterMap]

/-- C7 witness: a three-campaign customer whose second campaign raises still
processes all three campaigns and completes with success. -/
theorem C7_per_campaign_failures_witness :
    ((run_decision_agent
        { globalInstruction := "manage campaigns",
          campaigns := [⟨some "c1", Option.none⟩, ⟨some "c2", Option.none⟩,
                        ⟨some "c3", Option.none⟩],
          runId := "run-1",
          agentRun := fun cid =>
            if cid = "c2" then AgentOutcome.raises "boom" else AgentOutcome.ok }
        false LogState.init).1.status = "success" ∧
     (run_decision_agent
        { globalInstruction := "manage campaigns",
          campaigns := [⟨some "c1", Option.none⟩, ⟨some "c2", Option.none⟩,
                        ⟨some "c3", Option.none⟩],
          runId := "run-1",
          agentRun := fun cid =>
            if cid = "c2" then AgentOutcome.raises "boom" else AgentOutcome.ok }
        false LogState.init).2.1
       = [⟨some "c1", Option.none⟩, ⟨some "c2", Option.none⟩,
          (⟨some "c3", Option.none⟩ : CampaignCfg)].filterMap
           (fun c => c.campaignId)) :=
  C7_per_campaign_failures_do_not_abort
    { globalInstruction := "manage campaigns",
      campaigns := [⟨some "c1", Option.none⟩, ⟨some "c2", Option.none⟩,
                    ⟨some "c3", Option.none⟩],
      runId := "run-1",
      agentRun := fun cid =>
        if cid = "c2" then AgentOutcome.raises "boom" else AgentOutcome.ok }
    false LogState.init (by decide)

/-- C4 (amended): on the argument tuples the real tool accepts
(`status` ∈ {ENABLED, PAUSED}) the dry-run tool returns the deterministic
simulated success dict with `dry_run=True`, appends exactly one action with
`simulated=True` under the real mutation's tool name, and the real tool with
the same arguments against a successful backend returns a success dict and
submits one mutation; on other tuples the real tool raises while the
dry-run still succeeds (see the counterexample). -/
theorem C4_dry_run_refinement_on_valid_status :
    ∀ (customer_id campaign_id status : String) (s : LogState)
      (env : AdsEnv) (rn : String),
      s.cells ≠ [] →
      (status = "ENABLED" ∨ status = "PAUSED") →
      env.clientOk = true →
      env.mutateOutcome = Except.ok rn →
      ((dry_run_update_campaign_status customer_id campaign_id status s).1
        = [("success", PyValue.bool true), ("dry_run", PyValue.bool true),
           ("message", PyValue.str ("[DRY-RUN] Change campaign " ++ campaign_id ++
             " status to " ++ status)),
           ("resource_name", PyValue.str ("simulated/" ++ campaign_id))]) ∧
      ((dry_run_update_campaign_status customer_id campaign_id status s).2.contents 0
        = s.contents 0 ++
          [{ timestamp := s.clock, tool := "update_google_ads_campaign_status",
             params := [("customer_id", PyValue.str customer_id),
                        ("campaign_id", PyValue.str campaign_id),
                        ("status", PyValue.str status)],
             description := "Change campaign " ++ campaign_id ++
               " status to " ++ status,
             simulated := true, result := Option.none }]) ∧
      ((update_campaign_status env customer_id campaign_id status).result
        = Except.ok [("success", PyValue.bool true),
                     ("resource_name", PyValue.str rn)]) ∧
      ((update_campaign_status env customer_id campaign_id status).mutateCalls
        = [{ maskPaths := ["status", "status"] }]) := by
  intro cu ca st s env rn hs hst hc hm
  refine ⟨?_, ?_, ?_, ?_⟩
  · have hlit : "[DRY-RUN] " ++ "Change campaign " = "[DRY-RUN] Change campaign " := rfl
    simp [dry_run_update_campaign_status, _log_action, List.lookup, pyStr,
      ← String.append_assoc, hlit]
  · simp only [dry_run_update_campaign_status, _log_action, log_action,
      LogState.contents]
    exact set_zero_getD _ _ hs
  · rcases hst with h | h <;> subst h <;>
      simp [update_campaign_status, hc, hm]
  · rcases hst with h | h <;> subst h <;>
      simp [update_campaign_status, hc, hm]

/-- C4 witness: the amended theorem instantiated at the spec's example tuple
`("1", "2", "PAUSED")` with a successful backend. -/
theorem C4_dry_run_refinement_witness :
    ((dry_run_update_campaign_status "1" "2" "PAUSED" LogState.init).1
      = [("success", PyValue.bool true), ("dry_run", PyValue.bool true),
         ("message", PyValue.str ("[DRY-RUN] Change campaign " ++ "2" ++
           " status to " ++ "PAUSED")),
         ("resource_name", PyValue.str ("simulated/" ++ "2"))]) ∧
    ((dry_run_update_campaign_status "1" "2" "PAUSED" LogState.init).2.contents 0
      = LogState.init.contents 0 ++
        [{ timestamp := LogState.init.clock,
           tool := "update_google_ads_campaign_status",
           params := [("customer_id", PyValue.str "1"),
                      ("campaign_id", PyValue.str "2"),
                      ("status", PyValue.str "PAUSED")],
           description := "Change campaign " ++ "2" ++ " status to " ++ "PAUSED",
           simulated := true, result := Option.none }]) ∧
    ((update_campaign_status
        { clientOk := true, campaignDetails := [], mutateOutcome := Except.ok "rn" }
        "1" "2" "PAUSED").result
      = Except.ok [("success", PyValue.bool true),
                   ("resource_name", PyValue.str "rn")]) ∧
    ((update_campaign_status
        { clientOk := true, campaignDetails := [], mutateOutcome := Except.ok "rn" }
        "1" "2" "PAUSED").mutateCalls
      = [{ maskPaths := ["status", "status"] }]) :=
  C4_dry_run_refinement_on_valid_status "1" "2" "PAUSED" LogState.init
    { clientOk := true, campaignDetails := [], mutateOutcome := Except.ok "rn" }
    "rn" (by decide) (Or.inr rfl) rfl rfl

/-- C5 (amended): whenever `update_bidding_strategy` actually submitted a
mutation and the backend rejected it with a structured exception, the
function raises a `RuntimeError` whose own argument list is the single
flattened string rendering of the failure, with the original exception —
and through it the structured error list, intact — attached only as the
chained cause. -/
theorem C5_backend_rejection_propagation :
    ∀ (env : AdsEnv) (customer_id campaign_id strategy_type : String)
      (strategy_details : Option Dict) (ex : GoogleAdsException),
      env.mutateOutcome = Except.error ex →
      (update_bidding_strategy env customer_id campaign_id strategy_type
        strategy_details).mutateCalls ≠ [] →
      (update_bidding_strategy env customer_id campaign_id strategy_type
        strategy_details).result
        = Except.error (PyErr.runtimeError
            [PyValue.str ("Failed to update bidding strategy: " ++
              renderFailure ex.failure)]
            (some ex)) := by
  intro env cu ca st d ex hm h
  simp only [update_bidding_strategy] at h ⊢
  by_cases h1 : (!env.clientOk) = true
  · simp [h1] at h
  · simp only [h1, Bool.false_eq_true, if_false, if_neg] at h ⊢
    by_cases h2 : pyTruthyOpt (env.campaignDetails.lookup "error") = true
    · simp [h2] at h
    · simp only [h2, if_false, if_neg] at h ⊢
      by_cases h3 : (!pyTruthyOpt (env.campaignDetails.lookup "advertisingChannelType")) = true
      · simp [h3] at h
      · simp only [h3, Bool.false_eq_true, if_false, if_neg] at h ⊢
        by_cases h4 : (!validate_strategy_change
            (pyStr ((env.campaignDetails.lookup "advertisingChannelType").getD PyValue.none)) st) = true
        · simp [h4] at h
        · simp only [h4, Bool.false_eq_true, if_false, if_neg] at h ⊢
          by_cases h5 : strStartsWith st "customers/" = true
          · simp only [h5, if_true, if_pos] at h ⊢
            simp [ubsSubmit, hm]
          · simp only [h5, Bool.false_eq_true, if_false, if_neg] at h ⊢
            by_cases h6 : (!(_apply_bidding_strategy_details StrategyObj.fresh st [] d).ok) = true
            · simp [h6] at h
            · simp only [h6, Bool.false_eq_true, if_false, if_neg] at h ⊢
              simp [ubsSubmit, hm]

/-- C5 witness: the amended theorem instantiated at a concrete rejection
with two structured errors. -/
theorem C5_backend_rejection_witness :
    (update_bidding_strategy
        { clientOk := true,
          campaignDetails := [("advertisingChannelType", PyValue.str "SEARCH")],
          mutateOutcome := Except.error
            ⟨⟨[⟨"QUOTA_ERROR", "rate"⟩, ⟨"FIELD_ERROR", "bad"⟩]⟩⟩ }
        "1" "2" "MAXIMIZE_CONVERSIONS" Option.none).result
      = Except.error (PyErr.runtimeError
          [PyValue.str ("Failed to update bidding strategy: " ++
            renderFailure
              (⟨⟨[⟨"QUOTA_ERROR", "rate"⟩, ⟨"FIELD_ERROR", "bad"⟩]⟩⟩ :
                GoogleAdsException).failure)]
          (some ⟨⟨[⟨"QUOTA_ERROR", "rate"⟩, ⟨"FIELD_ERROR", "bad"⟩]⟩⟩)) :=
  C5_backend_rejection_propagation
    { clientOk := true,
      campaignDetails := [("advertisingChannelType", PyValue.str "SEARCH")],
      mutateOutcome := Except.error
        ⟨⟨[⟨"QUOTA_ERROR", "rate"⟩, ⟨"FIELD_ERROR", "bad"⟩]⟩⟩ }
    "1" "2" "MAXIMIZE_CONVERSIONS" Option.none
    ⟨⟨[⟨"QUOTA_ERROR", "rate"⟩, ⟨"FIELD_ERROR", "bad"⟩]⟩⟩ rfl (by decide)

end AgenticDsta
